import Mathlib

/-!
Verification of the calculation engine of the structural-design suite.

The repository ships three near-identical engine variants:
* `src/unnamed/part_002` defines the `calculationEngine` object consumed by
  `src/app.js` (the live pipeline).  Its functions are embedded below with
  the prefix `p002_` (or no prefix for the shared record types).
* `src/unnamed/part_000` is the `CivilSuiteApp` v2.0 variant with inline
  engine methods, embedded with prefix `p000_`.
* `src/unnamed/part_001` is an older variant, embedded with prefix `p001_`.

All numeric JS doubles are modelled as real numbers; `Math.sqrt` is
`Real.sqrt`, `Math.abs` is `|·|`, `Math.max`/`Math.min` are `max`/`min`,
`Math.ceil` is `Int.ceil`.
-/

namespace StructuralSuite

/-- Support condition of a beam, the value of the `beamType` selector.
JS switches on the string; values other than the three handled by
`part_002` fall into its `default` branch. -/
inductive SupportType
  | simplySupported
  | cantilever
  | fixedEnds
  | continuous
deriving DecidableEq

/-- Slab classification given to `calculateSlabMoments` in `part_002`. -/
inductive SlabType
  | oneWay
  | twoWay
  | cantileverSlab
  | otherSlab
deriving DecidableEq

/-- Parameter record handed to `calculationEngine.calculateBeamForces`
(`src/unnamed/part_002`, lines 3-43): span `L` (m), `factoredUDL` (kN/m),
support `type`, concrete strength `fck`, width `b` (mm), depth `D` (mm). -/
structure BeamMetric where
  L : ℝ
  factoredUDL : ℝ
  type : SupportType
  fck : ℝ
  b : ℝ
  D : ℝ

/-- Result record of `calculateBeamForces`. -/
structure BeamForces where
  maxShear : ℝ
  maxMoment : ℝ
  maxDeflection : ℝ

/-- `calculationEngine.calculateBeamForces` (`src/unnamed/part_002`,
lines 3-43).  `E = 5000·√fck`, `I = b·D³/12`, `w = factoredUDL·1000`;
the switch computes shear, moment and deflection for the three supported
conditions and leaves all three zero in the `default` branch (which the
string `continuous` hits); absolute values are taken on return and the
deflection is scaled by 1000. -/
noncomputable def p002_calculateBeamForces (m : BeamMetric) : BeamForces :=
  let E := 5000 * Real.sqrt m.fck
  let I := (m.b * m.D ^ 3) / 12
  let w := m.factoredUDL * 1000
  let raw : ℝ × ℝ × ℝ :=
    match m.type with
    | .simplySupported =>
        (m.factoredUDL * m.L / 2, m.factoredUDL * m.L * m.L / 8,
         (5 * w * m.L ^ 4) / (384 * E * I))
    | .cantilever =>
        (m.factoredUDL * m.L, m.factoredUDL * m.L * m.L / 2,
         (w * m.L ^ 4) / (8 * E * I))
    | .fixedEnds =>
        (m.factoredUDL * m.L / 2, m.factoredUDL * m.L * m.L / 12,
         (w * m.L ^ 4) / (384 * E * I))
    | _ => (0, 0, 0)
  { maxShear := |raw.1|
    maxMoment := |raw.2.1|
    maxDeflection := |raw.2.2 * 1000| }

/-- `calculationEngine.calculateDoublyReinforcedSteel`
(`src/unnamed/part_002`, lines 72-79): splits the moment at
`mu_lim = 0.138·fck·b·d²`; the second steel component assumes a 25 mm
cover to the compression steel. -/
noncomputable def p002_calculateDoublyReinforcedSteel
    (moment fck fy b d : ℝ) : ℝ :=
  let mu_lim := 0.138 * fck * b * d * d
  let Ast1 := mu_lim / (0.87 * fy * (d - 0.416 * 0.48 * d))
  let mu2 := moment - mu_lim
  let Ast2 := mu2 / (0.87 * fy * (d - 25))
  Ast1 + Ast2

/-- `calculationEngine.calculateSteelArea` (`src/unnamed/part_002`,
lines 45-70): moments above `mu_lim` go to the doubly-reinforced branch;
otherwise the singly-reinforced percentage formula is used and the result
is clamped into `[Ast_min, Ast_max]`. -/
noncomputable def p002_calculateSteelArea (moment fck fy b d : ℝ) : ℝ :=
  let mu_lim := 0.138 * fck * b * d * d
  if moment > mu_lim then
    p002_calculateDoublyReinforcedSteel moment fck fy b d
  else
    let R := moment / (b * d * d)
    let pt := (50 * fck / fy) * (1 - Real.sqrt (1 - (4.6 * R) / fck))
    let Ast := (pt * b * d) / 100
    let Ast_min := max (0.0012 * b * d) (0.85 * b * d / fy)
    let Ast_max := 0.04 * b * d
    min (max Ast Ast_min) Ast_max

/-- `calculationEngine.calculateMomentCapacity` (`src/unnamed/part_002`,
lines 81-92): neutral-axis depth `xu` from the supplied steel; when `xu`
exceeds `xu_max = 0.48·d` the section is over-reinforced and the limiting
capacity `0.138·fck·b·d²` is returned; otherwise the lever-arm formula. -/
noncomputable def p002_calculateMomentCapacity (Ast fy fck b d : ℝ) : ℝ :=
  let xu := (0.87 * fy * Ast) / (0.36 * fck * b)
  let xu_max := 0.48 * d
  if xu > xu_max then
    0.138 * fck * b * d * d
  else
    0.36 * fck * b * xu * (d - 0.416 * xu)

/-- `calculationEngine.calculateShearCapacity` (`src/unnamed/part_002`,
lines 94-111): a steel-percentage stepped table of `tau_c`, scaled by
`√(fck/25)`, times `b·d`. -/
noncomputable def p002_calculateShearCapacity (fck b d Ast : ℝ) : ℝ :=
  let pt := (Ast * 100) / (b * d)
  let tau0 : ℝ :=
    if pt ≤ 0.15 then 0.28
    else if pt ≤ 0.25 then 0.36
    else if pt ≤ 0.50 then 0.48
    else if pt ≤ 0.75 then 0.56
    else if pt ≤ 1.00 then 0.62
    else 0.67
  let tau_c := tau0 * Real.sqrt (fck / 25)
  tau_c * b * d

/-- `calculationEngine.calculateSlabMoments` (`src/unnamed/part_002`,
lines 148-179). -/
noncomputable def p002_calculateSlabMoments
    (slabType : SlabType) (length width factoredLoad : ℝ) : ℝ × ℝ :=
  match slabType with
  | .oneWay =>
      let span := min length width
      (factoredLoad * span * span / 8, factoredLoad * span / 2)
  | .twoWay =>
      let ly := max length width
      let lx := min length width
      let aspect := ly / lx
      let maxMoment :=
        if aspect ≤ 2 then
          let alpha_x :=
            if aspect ≤ 1 then (0.062 : ℝ)
            else 0.062 + (0.055 - 0.062) * (aspect - 1)
          alpha_x * factoredLoad * lx * lx
        else factoredLoad * lx * lx / 8
      (maxMoment, factoredLoad * lx / 3)
  | .cantileverSlab =>
      (factoredLoad * length * length / 2, factoredLoad * length)
  | .otherSlab => (0, 0)

/-- `calculationEngine.calculateSlabReinforcement` (`src/unnamed/part_002`,
lines 135-145): singly-reinforced percentage formula with only a minimum
clamp. -/
noncomputable def p002_calculateSlabReinforcement
    (moment fck fy width effectiveDepth : ℝ) : ℝ :=
  let R := moment / (width * effectiveDepth * effectiveDepth)
  let pt := (50 * fck / fy) * (1 - Real.sqrt (1 - (4.6 * R) / fck))
  let astRequired := (pt * width * effectiveDepth) / 100
  let astMin := 0.0012 * width * effectiveDepth
  max astRequired astMin

/-- `calculationEngine.calculateSlabDeflection` (`src/unnamed/part_002`,
lines 181-191). -/
noncomputable def p002_calculateSlabDeflection
    (moment E I span : ℝ) (slabType : SlabType) : ℝ :=
  let coeff : ℝ :=
    match slabType with
    | .oneWay => 5 / 384
    | .twoWay => 1 / 250
    | .cantileverSlab => 1 / 8
    | .otherSlab => 0
  (coeff * moment * span * span) / (E * I)

/-- `calculationEngine.calculateCrackWidth` (`src/unnamed/part_002`,
lines 193-197). -/
noncomputable def p002_calculateCrackWidth
    (stress cover barSpacing barDia : ℝ) : ℝ :=
  let acr := Real.sqrt ((cover + barDia / 2) ^ 2 + (barSpacing / 2) ^ 2)
  let eps := stress / (2 * 10 ^ 5)
  (3 * acr * eps) / (1 + 2 * (acr - cover) / (0.85 * 150))

/-- Beam state of `app.js` (`src/app.js`, lines 18-23, fed through
`convertBeamStateToMetric`, identity in metric units). -/
structure AppBeamParams where
  type : SupportType
  L : ℝ
  b : ℝ
  D : ℝ
  DL : ℝ
  LL : ℝ
  fck : ℝ
  fy : ℝ
  cover : ℝ

/-
`CivilSuiteApp.runBeamAnalysis` in `src/app.js` (lines 136-195).  Each
local constant of that function is embedded as one definition below, in
source order: `metric.factoredUDL` (line 140), `forces` (line 144),
`d` (line 147), `Ast_req` (line 148), `Ast_min` (line 156),
`Ast_prov` (line 157), `momentCapacity` (line 159), `shearCapacity`
(line 163), `utilization` (line 167), `deflectionLimit` (line 168) and
`isSafe` (line 169).
-/

/-- `metric.factoredUDL = 1.5 * (metric.DL + metric.LL)` (`app.js`,
line 140). -/
noncomputable def app_beamFactoredUDL (p : AppBeamParams) : ℝ :=
  1.5 * (p.DL + p.LL)

/-- `window.calculationEngine.calculateBeamForces(metric)` (`app.js`,
line 144). -/
noncomputable def app_beamForces (p : AppBeamParams) : BeamForces :=
  p002_calculateBeamForces
    { L := p.L, factoredUDL := app_beamFactoredUDL p, type := p.type,
      fck := p.fck, b := p.b, D := p.D }

/-- Effective depth `d = metric.D - metric.cover - 10` (`app.js`,
line 147). -/
noncomputable def app_beamEffectiveDepth (p : AppBeamParams) : ℝ :=
  p.D - p.cover - 10

/-- `Ast_req` from `calculateSteelArea` on the moment demand in N·mm
(`app.js`, lines 148-154). -/
noncomputable def app_beamAstReq (p : AppBeamParams) : ℝ :=
  p002_calculateSteelArea ((app_beamForces p).maxMoment * 1e6)
    p.fck p.fy p.b (app_beamEffectiveDepth p)

/-- `Ast_min = 0.0012 * metric.b * d` (`app.js`, line 156). -/
noncomputable def app_beamAstMin (p : AppBeamParams) : ℝ :=
  0.0012 * p.b * app_beamEffectiveDepth p

/-- `Ast_prov = Math.max(Ast_req, Ast_min)` (`app.js`, line 157). -/
noncomputable def app_beamAstProv (p : AppBeamParams) : ℝ :=
  max (app_beamAstReq p) (app_beamAstMin p)

/-- `momentCapacity` from the engine (`app.js`, lines 159-161). -/
noncomputable def app_beamMomentCapacity (p : AppBeamParams) : ℝ :=
  p002_calculateMomentCapacity (app_beamAstProv p) p.fy p.fck p.b
    (app_beamEffectiveDepth p)

/-- `shearCapacity` from the engine (`app.js`, lines 163-165). -/
noncomputable def app_beamShearCapacity (p : AppBeamParams) : ℝ :=
  p002_calculateShearCapacity p.fck p.b (app_beamEffectiveDepth p)
    (app_beamAstProv p)

/-- `utilization = momentCapacity > 0 ? maxMoment*1e6/momentCapacity : 1`
(`app.js`, line 167). -/
noncomputable def app_beamUtilization (p : AppBeamParams) : ℝ :=
  if app_beamMomentCapacity p > 0 then
    ((app_beamForces p).maxMoment * 1e6) / app_beamMomentCapacity p
  else 1

/-- `deflectionLimit = metric.L * 1000 / 250` (`app.js`, line 168). -/
noncomputable def app_beamDeflectionLimit (p : AppBeamParams) : ℝ :=
  (p.L * 1000) / 250

/-- `isSafe = utilization <= 1.0 && maxDeflection <= deflectionLimit`
(`app.js`, line 169).  Shear does not enter the verdict. -/
def app_beamIsSafe (p : AppBeamParams) : Prop :=
  app_beamUtilization p ≤ 1 ∧
  (app_beamForces p).maxDeflection ≤ app_beamDeflectionLimit p

/-- Slab state of `app.js` (`src/app.js`, lines 30-35). -/
structure AppSlabParams where
  type : SlabType
  length : ℝ
  width : ℝ
  thickness : ℝ
  DL : ℝ
  LL : ℝ
  fck : ℝ
  fy : ℝ
  cover : ℝ

/-- `CivilSuiteApp.getOptimalBarDiameter` in `src/app.js`
(lines 331-340): first diameter in `[8,10,12,16,20]` whose area at
300 mm spacing covers the requirement, else 16. -/
noncomputable def app_getOptimalBarDiameter (requiredArea : ℝ) : ℝ :=
  if Real.pi * 8 ^ 2 / 4 * (1000 / 300) ≥ requiredArea then 8
  else if Real.pi * 10 ^ 2 / 4 * (1000 / 300) ≥ requiredArea then 10
  else if Real.pi * 12 ^ 2 / 4 * (1000 / 300) ≥ requiredArea then 12
  else if Real.pi * 16 ^ 2 / 4 * (1000 / 300) ≥ requiredArea then 16
  else if Real.pi * 20 ^ 2 / 4 * (1000 / 300) ≥ requiredArea then 20
  else 16

/-
`CivilSuiteApp.runSlabDesign` in `src/app.js` (lines 250-329), one
definition per local constant of that function, in source order.
-/

/-- `effectiveDepth = thickness - cover - 8` (`app.js`, line 256). -/
noncomputable def app_slabEffectiveDepth (p : AppSlabParams) : ℝ :=
  p.thickness - p.cover - 8

/-- `factoredLoad = 1.5 * (DL + LL)` (`app.js`, line 257). -/
noncomputable def app_slabFactoredLoad (p : AppSlabParams) : ℝ :=
  1.5 * (p.DL + p.LL)

/-- `forces` from `calculateSlabMoments` (`app.js`, lines 260-262);
first component `maxMoment` (kNm), second `maxShear`. -/
noncomputable def app_slabForces (p : AppSlabParams) : ℝ × ℝ :=
  p002_calculateSlabMoments p.type p.length p.width (app_slabFactoredLoad p)

/-- `astRequired` from `calculateSlabReinforcement` on the 1000 mm strip
(`app.js`, lines 265-267). -/
noncomputable def app_slabAstRequired (p : AppSlabParams) : ℝ :=
  p002_calculateSlabReinforcement ((app_slabForces p).1 * 1e6)
    p.fck p.fy 1000 (app_slabEffectiveDepth p)

/-- `astMin = 0.0012 * 1000 * thickness` (`app.js`, line 270). -/
noncomputable def app_slabAstMin (p : AppSlabParams) : ℝ :=
  0.0012 * 1000 * p.thickness

/-- `astMax = 0.04 * 1000 * effectiveDepth` (`app.js`, line 271). -/
noncomputable def app_slabAstMax (p : AppSlabParams) : ℝ :=
  0.04 * 1000 * app_slabEffectiveDepth p

/-- `astProvided = Math.min(Math.max(astRequired, astMin), astMax)`
(`app.js`, line 272). -/
noncomputable def app_slabAstProvided (p : AppSlabParams) : ℝ :=
  min (max (app_slabAstRequired p) (app_slabAstMin p)) (app_slabAstMax p)

/-- `barDia` (`app.js`, line 275). -/
noncomputable def app_slabBarDia (p : AppSlabParams) : ℝ :=
  app_getOptimalBarDiameter (app_slabAstProvided p)

/-- `spacing = Math.min(1000 / requiredBars, 300)` with
`requiredBars = Math.ceil(astProvided / areaPerBar)` (`app.js`,
lines 276-278). -/
noncomputable def app_slabSpacing (p : AppSlabParams) : ℝ :=
  let areaPerBar := Real.pi * app_slabBarDia p * app_slabBarDia p / 4
  let requiredBars : ℝ := (Int.ceil (app_slabAstProvided p / areaPerBar) : ℤ)
  min (1000 / requiredBars) 300

/-- `deflection` from `calculateSlabDeflection` with `E = 5000·√fck` and
`I = 1000·thickness³/12` (`app.js`, lines 281-285). -/
noncomputable def app_slabDeflection (p : AppSlabParams) : ℝ :=
  p002_calculateSlabDeflection (app_slabForces p).1
    (5000 * Real.sqrt p.fck) ((1000 * p.thickness ^ 3) / 12)
    (min p.length p.width) p.type

/-- `deflectionLimit` (`app.js`, line 286). -/
noncomputable def app_slabDeflectionLimit (p : AppSlabParams) : ℝ :=
  (min p.length p.width * 1000) / 250

/-- `crackWidth` from `calculateCrackWidth` at `stress = 0.87·fy`
(`app.js`, lines 290-293). -/
noncomputable def app_slabCrackWidth (p : AppSlabParams) : ℝ :=
  p002_calculateCrackWidth (0.87 * p.fy) p.cover (app_slabSpacing p)
    (app_slabBarDia p)

/-- `utilization` against the limiting moment of the strip (`app.js`,
line 296). -/
noncomputable def app_slabUtilization (p : AppSlabParams) : ℝ :=
  (app_slabForces p).1 /
    (0.138 * p.fck * 1000 * app_slabEffectiveDepth p *
      app_slabEffectiveDepth p / 1e6)

/-- `isSafe = utilization <= 1.0 && deflectionOK && crackWidthOK`
(`app.js`, lines 287, 294, 297). -/
def app_slabIsSafe (p : AppSlabParams) : Prop :=
  app_slabUtilization p ≤ 1 ∧
  app_slabDeflection p ≤ app_slabDeflectionLimit p ∧
  app_slabCrackWidth p ≤ 0.3

/-- One entry of `materialDB.concrete` in `src/unnamed/part_000`
(lines 29-42). -/
structure ConcreteProps where
  fck : ℝ
  Ec : ℝ
  density : ℝ

/-- One entry of `materialDB.steel` in `src/unnamed/part_000`. -/
structure SteelProps where
  fy : ℝ
  Es : ℝ

/-- Lookup `this.materialDB.concrete[grade]` as performed by
`runBeamAnalysis` in `src/unnamed/part_000` (line 928).  Only the five
listed grades exist; any other key yields `undefined` (`none`), and the
solver applies no fallback before dereferencing the entry. -/
noncomputable def p000_lookupConcrete (grade : ℝ) : Option ConcreteProps :=
  if grade = 20 then some ⟨20, 22360, 25⟩
  else if grade = 25 then some ⟨25, 25000, 25⟩
  else if grade = 30 then some ⟨30, 27386, 25⟩
  else if grade = 35 then some ⟨35, 29580, 25⟩
  else if grade = 40 then some ⟨40, 31623, 25⟩
  else none

/-- Lookup `this.materialDB.steel[grade]` (`src/unnamed/part_000`,
lines 37-41). -/
noncomputable def p000_lookupSteel (grade : ℝ) : Option SteelProps :=
  if grade = 415 then some ⟨415, 200000⟩
  else if grade = 500 then some ⟨500, 200000⟩
  else if grade = 550 then some ⟨550, 200000⟩
  else none

/-- Force-side output of `runBeamAnalysis` in `src/unnamed/part_000`
(lines 932-982). -/
structure P000Forces where
  reactionLeft : ℝ
  reactionRight : ℝ
  maxShear : ℝ
  maxMoment : ℝ
  maxDeflection : ℝ

/-- `calculateMomentOfInertia` in `src/unnamed/part_000`
(lines 1032-1034), inputs in meters. -/
noncomputable def p000_calculateMomentOfInertia (b D : ℝ) : ℝ :=
  (b * D ^ 3) / 12

/-- The internal-force switch of `runBeamAnalysis` in
`src/unnamed/part_000` (lines 932-982), for span `L` (m), UDL `w`
(kN/m), point load `P` (kN) at `a` (m), section `b`, `D` (m) and
concrete modulus `Ec`.  The `continuous` branch uses the simplified
two-span coefficients: end reactions `3wL/8`, middle reaction `10wL/8`
(entering the shear maximum), support moment `wL²/8` and the `1/185`
deflection coefficient; the point load is ignored there. -/
noncomputable def p000_beamForces (type : SupportType)
    (L w P a b D Ec : ℝ) : P000Forces :=
  let I := p000_calculateMomentOfInertia b D
  match type with
  | .simplySupported =>
      let left := (w * L) / 2 + (P * (L - a)) / L
      let right := (w * L) / 2 + (P * a) / L
      let M_udl := (w * L * L) / 8
      let M_point := (P * a * (L - a)) / L
      let deflection_udl := (5 * w * L ^ 4) / (384 * Ec * I * 1e6)
      let deflection_point := (P * a * (3 * L * L - 4 * a * a)) /
        (48 * Ec * I * 1e6)
      { reactionLeft := left, reactionRight := right,
        maxShear := max left right,
        maxMoment := M_udl + M_point,
        maxDeflection := (deflection_udl + deflection_point) * 1000 }
  | .cantilever =>
      let left := w * L + P
      let deflection_udl := (w * L ^ 4) / (8 * Ec * I * 1e6)
      let deflection_point := (P * a ^ 3) / (3 * Ec * I * 1e6)
      { reactionLeft := left, reactionRight := 0,
        maxShear := left,
        maxMoment := (w * L * L) / 2 + P * a,
        maxDeflection := (deflection_udl + deflection_point) * 1000 }
  | .fixedEnds =>
      { reactionLeft := (w * L) / 2, reactionRight := (w * L) / 2,
        maxShear := (w * L) / 2,
        maxMoment := (w * L * L) / 12,
        maxDeflection := (w * L ^ 4) / (384 * Ec * I * 1e6) * 1000 }
  | .continuous =>
      let left := (3 * w * L) / 8
      let right := (3 * w * L) / 8
      let middleReaction := (10 * w * L) / 8
      { reactionLeft := left, reactionRight := right,
        maxShear := max (max left right) middleReaction,
        maxMoment := (w * L * L) / 8,
        maxDeflection := (w * L ^ 4) / (185 * Ec * I * 1e6) * 1000 }

/-- `calculateSteelArea` in `src/unnamed/part_000` (lines 1036-1056):
`xulim` from the strain compatibility expression, limiting moment
`0.138·fck·b·d²`; the singly-reinforced branch solves the lever-arm
quadratic with the `4.598` coefficient, the doubly-reinforced branch
assumes a 50 mm compression-steel cover. -/
noncomputable def p000_calculateSteelArea (M fck fy b d : ℝ) : ℝ :=
  let xulim := (0.0035 / (0.0055 + 0.87 * fy / 200000)) * d
  let Mulim := 0.138 * fck * b * d * d
  if M ≤ Mulim then
    let k := M / (fck * b * d * d)
    let la := 0.5 * (1 + Real.sqrt (1 - 4.598 * k))
    let z := la * d
    M / (0.87 * fy * z)
  else
    let M1 := Mulim
    let M2 := M - M1
    let Ast1 := M1 / (0.87 * fy * (d - 0.416 * xulim))
    let Ast2 := M2 / (0.87 * fy * (d - 50))
    Ast1 + Ast2

/-- `calculateMomentCapacity` in `src/unnamed/part_000`
(lines 1058-1063): lever arm `z = d - 0.416·x` applied directly, with
no over-reinforcement cap. -/
noncomputable def p000_calculateMomentCapacity (Ast fy fck b d : ℝ) : ℝ :=
  let fsc := 0.87 * fy
  let x := (fsc * Ast) / (0.36 * fck * b)
  let z := d - 0.416 * x
  0.87 * fy * Ast * z

/-- `calculateShearCapacity` in `src/unnamed/part_000`
(lines 1065-1068): the constant-tau model `0.25·√fck·b·d`. -/
noncomputable def p000_calculateShearCapacity (fck b d : ℝ) : ℝ :=
  let tau_c := 0.25 * Real.sqrt fck
  tau_c * b * d

/-- `calculateMomentCapacity` in `src/unnamed/part_001`
(lines 849-853): same uncapped formula as `part_000` in the
`0.36·fck·b·x` form. -/
noncomputable def p001_calculateMomentCapacity (Ast fy fck b d : ℝ) : ℝ :=
  let fsc := 0.87 * fy
  let x := (fsc * Ast) / (0.36 * fck * b)
  0.36 * fck * b * x * (d - 0.416 * x)

/-- The shear capacity used inline by `runBeamAnalysis` in
`src/unnamed/part_001` (line 805): `0.5·√fck·(b·1000)·d / 1000` (kN),
with `b` in meters as in that solver. -/
noncomputable def p001_beamShearCapacity (fck b d : ℝ) : ℝ :=
  0.5 * Real.sqrt fck * b * 1000 * d / 1000

/-- A degenerate but accepted beam input: zero loads, `D = 20` with
`cover = 150` (effective depth `-140`) and `fck = 0.5`.  `app.js`
performs no validation, so `runBeamAnalysis` computes on it; the
resulting moment capacity is negative. -/
noncomputable def beamZeroCap : AppBeamParams :=
  ⟨.simplySupported, 1, 230, 20, 0, 0, 0.5, 500, 150⟩

/-- A well-formed beam input with zero loads: the default section
(230×450, cover 25, M25/Fe500) carrying nothing. -/
noncomputable def beamNoLoad : AppBeamParams :=
  ⟨.simplySupported, 6, 230, 450, 0, 0, 25, 500, 25⟩

/-- A slab input whose required steel (4600 mm²) exceeds the
`0.04·1000·d = 4000` maximum-steel clamp: one-way, 4×5 m, 108 mm thick
with zero cover, `DL = 100/3`, `fck = 46`. -/
noncomputable def slabOverLimit : AppSlabParams :=
  ⟨.oneWay, 4, 5, 108, 100 / 3, 0, 46, 500, 0⟩

/-- A slab input of the same shape with a moderate load (`DL = 19/3`),
whose required steel (460 mm²) sits inside the clamps. -/
noncomputable def slabModerate : AppSlabParams :=
  ⟨.oneWay, 4, 5, 108, 19 / 3, 0, 46, 500, 0⟩

/-- C7: for every positive span `L` and UDL `w`, the simply-supported
branch of the engine's beam force computation returns maximum bending
moment exactly `w·L²/8` and maximum shear `w·L/2` (no point load enters
this engine function). -/
theorem c7_simply_supported_exact (L w fck b D : ℝ)
    (hL : 0 < L) (hw : 0 < w) :
    (p002_calculateBeamForces
      ⟨L, w, .simplySupported, fck, b, D⟩).maxMoment = w * L ^ 2 / 8 ∧
    (p002_calculateBeamForces
      ⟨L, w, .simplySupported, fck, b, D⟩).maxShear = w * L / 2 := by
  have h8 : (0 : ℝ) ≤ w * L * L / 8 := by positivity
  have h2 : (0 : ℝ) ≤ w * L / 2 := by positivity
  refine ⟨?_, ?_⟩
  · show |w * L * L / 8| = w * L ^ 2 / 8
    rw [abs_of_nonneg h8]; ring
  · show |w * L / 2| = w * L / 2
    exact abs_of_nonneg h2

/-- C7 witness: the end-to-end scenario `L = 6`, `w = 20` yields
`M_max = 90` and `maxShear = 60`. -/
theorem c7_witness :
    (0 : ℝ) < 6 ∧ (0 : ℝ) < 20 ∧
    (p002_calculateBeamForces
      ⟨6, 20, .simplySupported, 25, 230, 450⟩).maxMoment = 90 ∧
    (p002_calculateBeamForces
      ⟨6, 20, .simplySupported, 25, 230, 450⟩).maxShear = 60 := by
  have h := c7_simply_supported_exact 6 20 25 230 450
    (by norm_num) (by norm_num)
  exact ⟨by norm_num, by norm_num,
    h.1.trans (by norm_num), h.2.trans (by norm_num)⟩

/-- C10: the engine's beam force computation takes absolute values
before returning, so all three returned components are non-negative for
every input record. -/
theorem c10_forces_nonneg (m : BeamMetric) :
    0 ≤ (p002_calculateBeamForces m).maxShear ∧
    0 ≤ (p002_calculateBeamForces m).maxMoment ∧
    0 ≤ (p002_calculateBeamForces m).maxDeflection :=
  ⟨abs_nonneg _, abs_nonneg _, abs_nonneg _⟩

/-- C8 (amended): the continuous two-span branch of `runBeamAnalysis`
in `part_000` produces end reactions `3wL/8`, a governing shear equal to
the middle reaction `10wL/8`, support moment `wL²/8`, and the `1/185`
deflection coefficient.  (The standalone `calculateBeamForces` of
`part_002` has no continuous case; see the counterexample.) -/
theorem c8_p000_continuous (L w P a b D Ec : ℝ)
    (hL : 0 < L) (hw : 0 < w) :
    (p000_beamForces .continuous L w P a b D Ec).reactionLeft
      = 3 * w * L / 8 ∧
    (p000_beamForces .continuous L w P a b D Ec).reactionRight
      = 3 * w * L / 8 ∧
    (p000_beamForces .continuous L w P a b D Ec).maxShear
      = 10 * w * L / 8 ∧
    (p000_beamForces .continuous L w P a b D Ec).maxMoment
      = w * L ^ 2 / 8 ∧
    (p000_beamForces .continuous L w P a b D Ec).maxDeflection
      = (w * L ^ 4) / (185 * Ec * ((b * D ^ 3) / 12) * 1e6) * 1000 := by
  have hmax : max (max (3 * w * L / 8) (3 * w * L / 8)) (10 * w * L / 8)
      = 10 * w * L / 8 := by
    rw [max_self]
    exact max_eq_right (by nlinarith)
  refine ⟨rfl, rfl, ?_, by show w * L * L / 8 = w * L ^ 2 / 8; ring, rfl⟩
  show max (max (3 * w * L / 8) (3 * w * L / 8)) (10 * w * L / 8)
    = 10 * w * L / 8
  exact hmax

/-- C8 witness: at `L = 4`, `w = 10` the continuous branch of
`part_000` reports the governing shear `10·10·4/8 = 50`. -/
theorem c8_witness :
    (0 : ℝ) < 4 ∧ (0 : ℝ) < 10 ∧
    (p000_beamForces .continuous 4 10 0 0 0.23 0.45 25000).maxShear
      = 10 * 10 * 4 / 8 :=
  ⟨by norm_num, by norm_num,
    (c8_p000_continuous 4 10 0 0 0.23 0.45 25000
      (by norm_num) (by norm_num)).2.2.1⟩

/-- C8 counterexample: the engine function `calculateBeamForces` of
`part_002` (the one `app.js` invokes) hits its `default` branch for the
support condition `continuous` and returns the all-zero record, not the
two-span coefficients (`wL²/8 = 20 ≠ 0` at `L = 4`, `w = 10`). -/
theorem c8_counterexample :
    (p002_calculateBeamForces
      ⟨4, 10, .continuous, 25, 230, 450⟩).maxShear = 0 ∧
    (p002_calculateBeamForces
      ⟨4, 10, .continuous, 25, 230, 450⟩).maxMoment = 0 ∧
    (p002_calculateBeamForces
      ⟨4, 10, .continuous, 25, 230, 450⟩).maxDeflection = 0 ∧
    (10 : ℝ) * 4 ^ 2 / 8 ≠ 0 := by
  refine ⟨?_, ?_, ?_, by norm_num⟩ <;>
    simp [p002_calculateBeamForces]

/-- C1 (amended): in the `calculationEngine` variant (`part_002`, the
engine `app.js` calls), whenever the neutral-axis depth
`x = 0.87·fy·Ast/(0.36·fck·b)` exceeds the balanced maximum `0.48·d`,
`calculateMomentCapacity` returns exactly the limiting capacity
`0.138·fck·b·d²`.  (The `part_000`/`part_001` variants have no such cap;
see the counterexample.) -/
theorem c1_p002_capacity_capped (Ast fy fck b d : ℝ)
    (hx : (0.87 * fy * Ast) / (0.36 * fck * b) > 0.48 * d) :
    p002_calculateMomentCapacity Ast fy fck b d
      = 0.138 * fck * b * d ^ 2 := by
  unfold p002_calculateMomentCapacity
  rw [if_pos hx]; ring

/-- C1 witness: at `Ast = 200, fy = 500, fck = 25, b = d = 100` the
neutral axis `x ≈ 96.7` exceeds `48` and the capped value is returned. -/
theorem c1_witness :
    (0.87 * 500 * 200) / (0.36 * 25 * 100) > 0.48 * (100 : ℝ) ∧
    p002_calculateMomentCapacity 200 500 25 100 100
      = 0.138 * 25 * 100 * 100 ^ 2 :=
  ⟨by norm_num, c1_p002_capacity_capped 200 500 25 100 100 (by norm_num)⟩

/-- C1 counterexample: the `part_000` variant of
`calculateMomentCapacity` applies no cap: at `Ast = 3600/29`,
`fy = 500`, `fck = 25`, `b = d = 100` the neutral axis is `60 > 48`
(over-reinforced) yet the function returns `4052160`, strictly more
than the limiting capacity `0.138·fck·b·d² = 3450000`. -/
theorem c1_counterexample :
    (0.87 * 500 * (3600 / 29)) / (0.36 * 25 * 100)
      > 0.48 * (100 : ℝ) ∧
    p000_calculateMomentCapacity (3600 / 29) 500 25 100 100
      > 0.138 * 25 * 100 * (100 : ℝ) ^ 2 := by
  constructor
  · norm_num
  · unfold p000_calculateMomentCapacity
    norm_num

/-- C6 (amended): the `part_000` variant of `calculateShearCapacity`
implements the constant-tau model `τc·b·d` with `τc = 0.25·√fck` and is
strictly positive for positive inputs; but this policy is not shared by
the other solvers (see the counterexample). -/
theorem c6_p000_shear_model (fck b d : ℝ)
    (hf : 0 < fck) (hb : 0 < b) (hd : 0 < d) :
    p000_calculateShearCapacity fck b d
      = 0.25 * Real.sqrt fck * b * d ∧
    0 < p000_calculateShearCapacity fck b d := by
  have hs : 0 < Real.sqrt fck := Real.sqrt_pos.mpr hf
  unfold p000_calculateShearCapacity
  exact ⟨rfl, by positivity⟩

/-- C6 witness: at `fck = 25`, `b = d = 100` the `part_000` shear
capacity is positive and equals `0.25·√25·100·100`. -/
theorem c6_witness :
    (0 : ℝ) < 25 ∧ (0 : ℝ) < 100 ∧
    0 < p000_calculateShearCapacity 25 100 100 :=
  ⟨by norm_num, by norm_num,
    (c6_p000_shear_model 25 100 100 (by norm_num) (by norm_num)
      (by norm_num)).2⟩

/-- C6 counterexample: the shear policy is not consistent across the
solvers.  At `fck = 25` and a 100×100 section, `part_000` gives
`0.25·5·100·100 = 12500` N, the `calculationEngine` of `part_002`
(used by `app.js`) gives `0.28·100·100 = 2800` N from its
steel-percentage table, and the `part_001` beam solver gives 25 kN,
i.e. 25000 N. -/
theorem c6_counterexample :
    p000_calculateShearCapacity 25 100 100
      ≠ p002_calculateShearCapacity 25 100 100 0 ∧
    1000 * p001_beamShearCapacity 25 0.1 100
      ≠ p000_calculateShearCapacity 25 100 100 := by
  have h25 : Real.sqrt (25 : ℝ) = 5 := by
    rw [show (25 : ℝ) = 5 ^ 2 by norm_num, Real.sqrt_sq (by norm_num)]
  constructor
  · unfold p000_calculateShearCapacity p002_calculateShearCapacity
    norm_num [h25, Real.sqrt_one]
  · unfold p001_beamShearCapacity p000_calculateShearCapacity
    norm_num [h25]

/-- C9: the material table of `part_000` defines concrete grades
20, 25, 30, 35 and 40 only; the lookup the beam solver performs for a
grade such as 28 yields no entry and no fallback to grade 25 happens
(the JS dereferences the `undefined` lookup and fails; nothing flags a
fallback). -/
theorem c9_no_grade_fallback :
    p000_lookupConcrete 28 = none ∧
    p000_lookupConcrete 25 = some ⟨25, 25000, 25⟩ := by
  constructor <;> norm_num [p000_lookupConcrete]

/-- The moderate slab input produces a 19 kNm strip moment. -/
lemma slabModerate_moment : (app_slabForces slabModerate).1 = 19 := by
  simp only [app_slabForces, app_slabFactoredLoad, slabModerate,
    p002_calculateSlabMoments]
  norm_num [min_def]

/-- Effective depth of the moderate slab input. -/
lemma slabModerate_depth : app_slabEffectiveDepth slabModerate = 100 := by
  norm_num [app_slabEffectiveDepth, slabModerate]

/-- Required steel of the moderate slab input evaluates to 460 mm². -/
lemma slabModerate_astRequired : app_slabAstRequired slabModerate = 460 := by
  have hsq : Real.sqrt 0.81 = 0.9 := by
    rw [show (0.81 : ℝ) = 0.9 ^ 2 by norm_num, Real.sqrt_sq (by norm_num)]
  simp only [app_slabAstRequired, slabModerate_moment, slabModerate_depth]
  simp only [slabModerate]
  simp only [p002_calculateSlabReinforcement]
  rw [show (1 : ℝ) - 4.6 * (19 * 1e6 / (1000 * 100 * 100)) / 46 = 0.81 by
    norm_num]
  rw [hsq]
  norm_num [max_def]

/-- C3 (amended): the `app.js` beam solver provides
`Ast_prov = max(Ast_req, Ast_min)`, so `areaProvided ≥
max(areaRequired, areaMinimum)` holds for it unconditionally; the slab
solver additionally clamps at the maximum steel `astMax`, and its
invariant holds exactly when `max(astRequired, astMin) ≤ astMax`. -/
theorem c3_area_invariant (p : AppBeamParams) (q : AppSlabParams)
    (h : max (app_slabAstRequired q) (app_slabAstMin q)
      ≤ app_slabAstMax q) :
    max (app_beamAstReq p) (app_beamAstMin p) ≤ app_beamAstProv p ∧
    max (app_slabAstRequired q) (app_slabAstMin q)
      ≤ app_slabAstProvided q := by
  refine ⟨le_of_eq rfl, ?_⟩
  unfold app_slabAstProvided
  exact le_of_eq (min_eq_left h).symm

/-- C3 witness: the moderate slab scenario satisfies the clamp
hypothesis and both invariants follow. -/
theorem c3_witness :
    max (app_slabAstRequired slabModerate) (app_slabAstMin slabModerate)
      ≤ app_slabAstMax slabModerate ∧
    max (app_beamAstReq beamNoLoad) (app_beamAstMin beamNoLoad)
      ≤ app_beamAstProv beamNoLoad ∧
    max (app_slabAstRequired slabModerate) (app_slabAstMin slabModerate)
      ≤ app_slabAstProvided slabModerate := by
  have h : max (app_slabAstRequired slabModerate) (app_slabAstMin slabModerate)
      ≤ app_slabAstMax slabModerate := by
    rw [slabModerate_astRequired]
    norm_num [app_slabAstMin, app_slabAstMax, app_slabEffectiveDepth,
      slabModerate, max_def]
  exact ⟨h, (c3_area_invariant beamNoLoad slabModerate h).1,
    (c3_area_invariant beamNoLoad slabModerate h).2⟩

/-- The overloaded slab input produces a 100 kNm strip moment. -/
lemma slabOverLimit_moment : (app_slabForces slabOverLimit).1 = 100 := by
  simp only [app_slabForces, app_slabFactoredLoad, slabOverLimit,
    p002_calculateSlabMoments]
  norm_num [min_def]

/-- Effective depth of the overloaded slab input. -/
lemma slabOverLimit_depth : app_slabEffectiveDepth slabOverLimit = 100 := by
  norm_num [app_slabEffectiveDepth, slabOverLimit]

/-- Required steel of the overloaded slab input evaluates to 4600 mm²,
above the 4000 mm² maximum-steel clamp. -/
lemma slabOverLimit_astRequired :
    app_slabAstRequired slabOverLimit = 4600 := by
  simp only [app_slabAstRequired, slabOverLimit_moment, slabOverLimit_depth]
  simp only [slabOverLimit]
  simp only [p002_calculateSlabReinforcement]
  rw [show (1 : ℝ) - 4.6 * (100 * 1e6 / (1000 * 100 * 100)) / 46 = 0 by
    norm_num]
  rw [Real.sqrt_zero]
  norm_num [max_def]

/-- C3 counterexample: on the overloaded slab input the provided area is
clamped to `astMax = 4000 < astRequired = 4600`, violating
`areaProvided ≥ max(areaRequired, areaMinimum)`; the invariant is not
solver-independent. -/
theorem c3_counterexample :
    app_slabAstProvided slabOverLimit
      < max (app_slabAstRequired slabOverLimit)
          (app_slabAstMin slabOverLimit) := by
  unfold app_slabAstProvided
  rw [slabOverLimit_astRequired]
  norm_num [app_slabAstMin, app_slabAstMax, app_slabEffectiveDepth,
    slabOverLimit, max_def, min_def]

/-- The degenerate beam input carries no load: the engine moment is 0. -/
lemma beamZeroCap_moment : (app_beamForces beamZeroCap).maxMoment = 0 := by
  simp only [app_beamForces, app_beamFactoredUDL, beamZeroCap,
    p002_calculateBeamForces]
  norm_num

/-- The degenerate beam input deflects by 0. -/
lemma beamZeroCap_deflection :
    (app_beamForces beamZeroCap).maxDeflection = 0 := by
  simp only [app_beamForces, app_beamFactoredUDL, beamZeroCap,
    p002_calculateBeamForces]
  norm_num

/-- Effective depth of the degenerate beam input is negative. -/
lemma beamZeroCap_depth : app_beamEffectiveDepth beamZeroCap = -140 := by
  norm_num [app_beamEffectiveDepth, beamZeroCap]

/-- Required steel of the degenerate beam input: the maximum-steel clamp
at the negative depth returns `-1288`. -/
lemma beamZeroCap_astReq : app_beamAstReq beamZeroCap = -1288 := by
  simp only [app_beamAstReq, beamZeroCap_moment, beamZeroCap_depth]
  simp only [beamZeroCap]
  simp only [p002_calculateSteelArea]
  norm_num [Real.sqrt_one, max_def, min_def]

/-- Provided steel of the degenerate beam input. -/
lemma beamZeroCap_astProv : app_beamAstProv beamZeroCap = -38.64 := by
  simp only [app_beamAstProv, app_beamAstMin, beamZeroCap_astReq,
    beamZeroCap_depth]
  simp only [beamZeroCap]
  norm_num [max_def]

/-- The computed moment capacity of the degenerate beam input is
strictly negative. -/
lemma beamZeroCap_capacity : app_beamMomentCapacity beamZeroCap < 0 := by
  simp only [app_beamMomentCapacity, beamZeroCap_astProv, beamZeroCap_depth]
  simp only [beamZeroCap]
  simp only [p002_calculateMomentCapacity]
  norm_num

/-- C4 (amended): in the `app.js` beam solver the utilization equals
`demand/capacity` whenever the computed capacity is strictly positive,
and a capacity of zero or below is reported as the sentinel value 1 —
which satisfies the `utilization ≤ 1` safety check rather than forcing
an unsafe verdict. -/
theorem c4_utilization_guard (p : AppBeamParams) :
    (0 < app_beamMomentCapacity p →
      app_beamUtilization p
        = ((app_beamForces p).maxMoment * 1e6) / app_beamMomentCapacity p) ∧
    (app_beamMomentCapacity p ≤ 0 →
      app_beamUtilization p = 1 ∧ app_beamUtilization p ≤ 1) := by
  constructor
  · intro h
    unfold app_beamUtilization
    rw [if_pos h]
  · intro h
    unfold app_beamUtilization
    rw [if_neg (not_lt.mpr h)]
    exact ⟨rfl, le_refl 1⟩

/-- Moment demand of the unloaded default beam is 0. -/
lemma beamNoLoad_moment : (app_beamForces beamNoLoad).maxMoment = 0 := by
  simp only [app_beamForces, app_beamFactoredUDL, beamNoLoad,
    p002_calculateBeamForces]
  norm_num

/-- Effective depth of the unloaded default beam. -/
lemma beamNoLoad_depth : app_beamEffectiveDepth beamNoLoad = 415 := by
  norm_num [app_beamEffectiveDepth, beamNoLoad]

/-- Provided steel of the unloaded default beam is the minimum-steel
value `0.85·230·415/500 = 162.265`. -/
lemma beamNoLoad_astProv : app_beamAstProv beamNoLoad = 162.265 := by
  have hreq : app_beamAstReq beamNoLoad = 162.265 := by
    simp only [app_beamAstReq, beamNoLoad_moment, beamNoLoad_depth]
    simp only [beamNoLoad]
    simp only [p002_calculateSteelArea]
    norm_num [Real.sqrt_one, max_def, min_def]
  simp only [app_beamAstProv, app_beamAstMin, hreq, beamNoLoad_depth]
  simp only [beamNoLoad]
  norm_num [max_def]

/-- The unloaded default beam has strictly positive moment capacity. -/
lemma beamNoLoad_capacity : 0 < app_beamMomentCapacity beamNoLoad := by
  simp only [app_beamMomentCapacity, beamNoLoad_astProv, beamNoLoad_depth]
  simp only [beamNoLoad]
  simp only [p002_calculateMomentCapacity]
  norm_num

/-- C4 witness: on the unloaded default beam (positive capacity) the
utilization is the exact quotient; on the degenerate input
(negative capacity) it is the sentinel 1. -/
theorem c4_witness :
    app_beamUtilization beamNoLoad
      = ((app_beamForces beamNoLoad).maxMoment * 1e6)
          / app_beamMomentCapacity beamNoLoad ∧
    app_beamUtilization beamZeroCap = 1 :=
  ⟨(c4_utilization_guard beamNoLoad).1 beamNoLoad_capacity,
    ((c4_utilization_guard beamZeroCap).2
      (le_of_lt beamZeroCap_capacity)).1⟩

/-- C4 counterexample: the degenerate beam input has strictly negative
computed capacity, yet the reported utilization is 1 and the solver's
verdict `isSafe` holds — the sentinel does not make the verdict unsafe,
contradicting the claim. -/
theorem c4_counterexample :
    app_beamMomentCapacity beamZeroCap < 0 ∧
    app_beamUtilization beamZeroCap = 1 ∧
    app_beamIsSafe beamZeroCap := by
  have hu : app_beamUtilization beamZeroCap = 1 := by
    unfold app_beamUtilization
    rw [if_neg (not_lt.mpr (le_of_lt beamZeroCap_capacity))]
  refine ⟨beamZeroCap_capacity, hu, ?_, ?_⟩
  · rw [hu]
  · rw [beamZeroCap_deflection]
    norm_num [app_beamDeflectionLimit, beamZeroCap]

/-- C5 (amended): for fixed positive `fck, fy, b, d` the engine's
`calculateSteelArea` is monotone in the moment within each branch:
on the singly-reinforced side (`M ≤ 0.138·fck·b·d²`) unconditionally,
and on the doubly-reinforced side provided `d > 25` (the compression
cover assumed there).  Across the branch switch the area can drop,
because the doubly branch omits the minimum-steel clamp; see the
counterexample. -/
theorem c5_steelArea_branch_monotone (fck fy b d : ℝ)
    (hfck : 0 < fck) (hfy : 0 < fy) (hb : 0 < b) (hd : 0 < d) :
    (∀ M1 M2 : ℝ, 0 < M1 → M1 ≤ M2 → M2 ≤ 0.138 * fck * b * d * d →
      p002_calculateSteelArea M1 fck fy b d
        ≤ p002_calculateSteelArea M2 fck fy b d) ∧
    (∀ M1 M2 : ℝ, 0.138 * fck * b * d * d < M1 → M1 ≤ M2 → 25 < d →
      p002_calculateSteelArea M1 fck fy b d
        ≤ p002_calculateSteelArea M2 fck fy b d) := by
  have hbdd : (0 : ℝ) < b * d * d := by positivity
  constructor
  · intro M1 M2 h1 h12 h2lim
    have hn1 : ¬ (M1 > 0.138 * fck * b * d * d) :=
      not_lt.mpr (h12.trans h2lim)
    have hn2 : ¬ (M2 > 0.138 * fck * b * d * d) := not_lt.mpr h2lim
    simp only [p002_calculateSteelArea]
    rw [if_neg hn1, if_neg hn2]
    have hsq : Real.sqrt (1 - 4.6 * (M2 / (b * d * d)) / fck)
        ≤ Real.sqrt (1 - 4.6 * (M1 / (b * d * d)) / fck) := by
      apply Real.sqrt_le_sqrt
      have hdiv : M1 / (b * d * d) ≤ M2 / (b * d * d) := by
        rw [div_le_div_iff hbdd hbdd]
        nlinarith
      have h46 : 4.6 * (M1 / (b * d * d)) / fck
          ≤ 4.6 * (M2 / (b * d * d)) / fck := by
        rw [div_le_div_iff hfck hfck]
        nlinarith
      linarith
    have hco : (0 : ℝ) ≤ 50 * fck / fy := by positivity
    have hAst : (50 * fck / fy * (1 - Real.sqrt
          (1 - 4.6 * (M1 / (b * d * d)) / fck))) * b * d / 100
        ≤ (50 * fck / fy * (1 - Real.sqrt
          (1 - 4.6 * (M2 / (b * d * d)) / fck))) * b * d / 100 := by
      have h1s : 1 - Real.sqrt (1 - 4.6 * (M1 / (b * d * d)) / fck)
          ≤ 1 - Real.sqrt (1 - 4.6 * (M2 / (b * d * d)) / fck) := by
        linarith
      have := mul_le_mul_of_nonneg_left h1s hco
      nlinarith [mul_pos hb hd]
    exact min_le_min (max_le_max hAst le_rfl) le_rfl
  · intro M1 M2 h1lim h12 hd25
    have hp1 : M1 > 0.138 * fck * b * d * d := h1lim
    have hp2 : M2 > 0.138 * fck * b * d * d := lt_of_lt_of_le h1lim h12
    simp only [p002_calculateSteelArea]
    rw [if_pos hp1, if_pos hp2]
    simp only [p002_calculateDoublyReinforcedSteel]
    have hden : (0 : ℝ) < 0.87 * fy * (d - 25) := by nlinarith
    have h2 : (M1 - 0.138 * fck * b * d * d) / (0.87 * fy * (d - 25))
        ≤ (M2 - 0.138 * fck * b * d * d) / (0.87 * fy * (d - 25)) :=
      (div_le_div_right hden).mpr (by linarith)
    linarith

/-- C5 witness: with `fck = 25, fy = 500, b = d = 100` the singly
branch is monotone between the demands `10⁶` and `2·10⁶` N·mm. -/
theorem c5_witness :
    (0 : ℝ) < 25 ∧ (0 : ℝ) < 500 ∧ (0 : ℝ) < 100 ∧
    p002_calculateSteelArea 1000000 25 500 100 100
      ≤ p002_calculateSteelArea 2000000 25 500 100 100 :=
  ⟨by norm_num, by norm_num, by norm_num,
    (c5_steelArea_branch_monotone 25 500 100 100 (by norm_num)
        (by norm_num) (by norm_num) (by norm_num)).1
      1000000 2000000 (by norm_num) (by norm_num) (by norm_num)⟩

/-- C5 counterexample: at `fck = 1, fy = 500, b = d = 100` the demand
`138000` (the limiting moment, singly branch) requires 17 mm² once the
minimum-steel clamp applies, while the double demand `276000` (doubly
branch, which has no such clamp) requires only about 8.19 mm²: a larger
demand yields strictly less steel. -/
theorem c5_counterexample :
    (138000 : ℝ) ≤ 276000 ∧
    p002_calculateSteelArea 276000 1 500 100 100
      < p002_calculateSteelArea 138000 1 500 100 100 := by
  refine ⟨by norm_num, ?_⟩
  have hL : p002_calculateSteelArea 276000 1 500 100 100 < 17 := by
    simp only [p002_calculateSteelArea]
    rw [if_pos (by norm_num : (276000 : ℝ) > 0.138 * 1 * 100 * 100 * 100)]
    simp only [p002_calculateDoublyReinforcedSteel]
    norm_num
  have hR : (17 : ℝ) ≤ p002_calculateSteelArea 138000 1 500 100 100 := by
    simp only [p002_calculateSteelArea]
    rw [if_neg (by norm_num :
      ¬ ((138000 : ℝ) > 0.138 * 1 * 100 * 100 * 100))]
    refine le_min (le_trans ?_ (le_max_right _ _)) (by norm_num)
    norm_num [le_max_iff]
  linarith

set_option maxHeartbeats 1600000 in
/-- C2 (amended): the round trip
`momentCapacity(steelArea(M), ...) ≥ M` holds in the engine of
`part_002` for demands up to `0.06·fck·b·d²` (with a material in the
realistic range `fy ≥ 2·fck`); near the limiting moment
`0.138·fck·b·d²` the claim fails — the recomputed capacity comes out
slightly below the demand (see the counterexample). -/
theorem c2_roundtrip_low_demand (M fck fy b d : ℝ)
    (hfck : 0 < fck) (hb : 0 < b) (hd : 0 < d) (hgrade : 2 * fck ≤ fy)
    (hM : 0 < M) (hMle : M ≤ 0.06 * (fck * b * d * d)) :
    M ≤ p002_calculateMomentCapacity
          (p002_calculateSteelArea M fck fy b d) fy fck b d := by
  have hfy : 0 < fy := by linarith
  have hbdd : (0 : ℝ) < b * d * d := by positivity
  have hnot : ¬ (M > 0.138 * fck * b * d * d) := by
    push_neg
    nlinarith
  -- the root of the singly-reinforced radicand and its bounds
  have harg_lb : (0.7225 : ℝ) ≤ 1 - 4.6 * (M / (b * d * d)) / fck := by
    have hMdiv : M / (b * d * d) ≤ 0.06 * fck := by
      rw [div_le_iff hbdd]; nlinarith
    have h46 : 4.6 * (M / (b * d * d)) / fck ≤ 0.276 := by
      rw [div_le_iff hfck]
      nlinarith
    linarith
  have harg_ub : 1 - 4.6 * (M / (b * d * d)) / fck ≤ 1 := by
    have : 0 < 4.6 * (M / (b * d * d)) / fck := by positivity
    linarith
  obtain ⟨s, hs_def⟩ : ∃ x : ℝ,
      x = Real.sqrt (1 - 4.6 * (M / (b * d * d)) / fck) := ⟨_, rfl⟩
  have hs0 : 0 ≤ s := by rw [hs_def]; exact Real.sqrt_nonneg _
  have hs_sq : s ^ 2 = 1 - 4.6 * (M / (b * d * d)) / fck := by
    rw [hs_def]; exact Real.sq_sqrt (by linarith)
  have hs_lb : (0.85 : ℝ) ≤ s := by
    rw [hs_def,
      show (0.85 : ℝ) = Real.sqrt (0.85 ^ 2) from
        (Real.sqrt_sq (by norm_num)).symm]
    exact Real.sqrt_le_sqrt (by nlinarith)
  have hs_ub : s ≤ 1 := by
    rw [hs_def]
    calc Real.sqrt (1 - 4.6 * (M / (b * d * d)) / fck)
        ≤ Real.sqrt 1 := Real.sqrt_le_sqrt harg_ub
      _ = 1 := Real.sqrt_one
  -- the provided steel area
  obtain ⟨A, hA_def⟩ : ∃ x : ℝ,
      x = p002_calculateSteelArea M fck fy b d := ⟨_, rfl⟩
  rw [← hA_def]
  have hA_eq : A = min
      (max ((50 * fck / fy * (1 - s)) * b * d / 100)
        (max (0.0012 * b * d) (0.85 * b * d / fy)))
      (0.04 * b * d) := by
    rw [hA_def, hs_def]
    simp only [p002_calculateSteelArea]
    rw [if_neg hnot]
  have hratio : fck / fy ≤ 1 / 2 := by
    rw [div_le_iff hfy]; linarith
  have hAst0_le_X : (50 * fck / fy * (1 - s)) * b * d / 100
      ≤ 0.04 * b * d := by
    have hprod : fck / fy * (1 - s) ≤ (1 / 2) * 0.15 :=
      mul_le_mul hratio (by linarith) (by linarith) (by norm_num)
    have h2 : fck / fy * (1 - s) * (b * d) ≤ 1 / 2 * 0.15 * (b * d) :=
      mul_le_mul_of_nonneg_right hprod (mul_pos hb hd).le
    ring_nf at h2 ⊢
    linarith [mul_pos hb hd]
  have hA_lb : (50 * fck / fy * (1 - s)) * b * d / 100 ≤ A := by
    rw [hA_eq]
    exact le_min (le_max_left _ _) hAst0_le_X
  -- the capacity branch
  simp only [p002_calculateMomentCapacity]
  by_cases hcap : (0.87 * fy * A) / (0.36 * fck * b) > 0.48 * d
  · rw [if_pos hcap]
    nlinarith [mul_pos (mul_pos hfck hb) (mul_pos hd hd)]
  · rw [if_neg hcap]
    push_neg at hcap
    obtain ⟨xA, hxA_def⟩ : ∃ x : ℝ,
        x = (0.87 * fy * A) / (0.36 * fck * b) := ⟨_, rfl⟩
    rw [← hxA_def] at hcap ⊢
    have hxA_lb : 0.87 / 0.36 * ((1 - s) / 2) * d ≤ xA := by
      rw [hxA_def, le_div_iff (by positivity : (0 : ℝ) < 0.36 * fck * b)]
      have key : 0.87 / 0.36 * ((1 - s) / 2) * d * (0.36 * fck * b)
          = 0.87 * fy * ((50 * fck / fy * (1 - s)) * b * d / 100) := by
        field_simp
        ring
      rw [key]
      exact mul_le_mul_of_nonneg_left hA_lb (by positivity)
    have hx0_nonneg : (0 : ℝ) ≤ 0.87 / 0.36 * ((1 - s) / 2) * d := by
      have h1s : (0 : ℝ) ≤ 1 - s := by linarith
      nlinarith
    have hx0_ub : 0.87 / 0.36 * ((1 - s) / 2) * d ≤ 0.19 * d := by
      nlinarith
    -- monotonicity of the uncapped capacity from the unclamped area
    -- up to the provided area
    have hf2 : (0 : ℝ) ≤ d - 0.416 *
        (xA + 0.87 / 0.36 * ((1 - s) / 2) * d) := by
      nlinarith
    have hprod : (0 : ℝ) ≤ (xA - 0.87 / 0.36 * ((1 - s) / 2) * d) *
        (d - 0.416 * (xA + 0.87 / 0.36 * ((1 - s) / 2) * d)) :=
      mul_nonneg (by linarith) hf2
    have hstep1 : 0.36 * fck * b * (0.87 / 0.36 * ((1 - s) / 2) * d) *
          (d - 0.416 * (0.87 / 0.36 * ((1 - s) / 2) * d))
        ≤ 0.36 * fck * b * xA * (d - 0.416 * xA) := by
      nlinarith [hprod, mul_pos hfck hb]
    -- the demand in terms of the root
    have hM46 : 4.6 * M = (1 - s ^ 2) * (fck * (b * d * d)) := by
      have h1 : 4.6 * (M / (b * d * d)) / fck = 1 - s ^ 2 := by
        rw [hs_sq]; ring
      rw [← h1]
      field_simp
      ring
    have hfac : (0 : ℝ) ≤ 1 / 2300 - 4377 / 862500 * ((1 - s) / 2) := by
      nlinarith
    have hP : (0 : ℝ) ≤ fck * b * (d * d) * ((1 - s) / 2) *
        (1 / 2300 - 4377 / 862500 * ((1 - s) / 2)) := by
      have h1s : (0 : ℝ) ≤ (1 - s) / 2 := by linarith
      have hbase : (0 : ℝ) ≤ fck * b * (d * d) * ((1 - s) / 2) := by
        positivity
      exact mul_nonneg hbase hfac
    have hstep2 : M ≤ 0.36 * fck * b * (0.87 / 0.36 * ((1 - s) / 2) * d) *
        (d - 0.416 * (0.87 / 0.36 * ((1 - s) / 2) * d)) := by
      nlinarith [hP, hM46]
    linarith

/-- C2 witness: the round trip holds at `M = 2375000` N·mm on a
230×100 M25/Fe500 section (the demand is below `0.06·fck·b·d²`). -/
theorem c2_witness :
    (2375000 : ℝ) ≤ p002_calculateMomentCapacity
      (p002_calculateSteelArea 2375000 25 500 230 100) 500 25 230 100 :=
  c2_roundtrip_low_demand 2375000 25 500 230 100 (by norm_num)
    (by norm_num) (by norm_num) (by norm_num) (by norm_num) (by norm_num)

/-- C2 counterexample: at `M = 6375000` N·mm on a 230×100 M25/Fe500
section (`M` below the limiting moment `7935000`), the steel computed by
`calculateSteelArea` is 172.5 mm², whose recomputed capacity is
`6372184.5 < 6375000`: the round trip fails below the doubly-reinforced
boundary. -/
theorem c2_counterexample :
    (0 : ℝ) < 6375000 ∧
    (6375000 : ℝ) ≤ 0.138 * 25 * 230 * 100 * 100 ∧
    p002_calculateMomentCapacity
        (p002_calculateSteelArea 6375000 25 500 230 100) 500 25 230 100
      < 6375000 := by
  have hsteel : p002_calculateSteelArea 6375000 25 500 230 100 = 172.5 := by
    simp only [p002_calculateSteelArea]
    rw [if_neg (by norm_num :
      ¬ ((6375000 : ℝ) > 0.138 * 25 * 230 * 100 * 100))]
    rw [show (1 : ℝ) - 4.6 * (6375000 / (230 * 100 * 100)) / 25 = 0.49 by
      norm_num]
    rw [show Real.sqrt 0.49 = 0.7 from by
      rw [show (0.49 : ℝ) = 0.7 ^ 2 by norm_num, Real.sqrt_sq (by norm_num)]]
    norm_num [max_def, min_def]
  have hcap : p002_calculateMomentCapacity 172.5 500 25 230 100
      = 6372184.5 := by
    simp only [p002_calculateMomentCapacity]
    rw [if_neg (by norm_num :
      ¬ ((0.87 * 500 * 172.5) / (0.36 * 25 * 230) > 0.48 * (100 : ℝ)))]
    norm_num
  refine ⟨by norm_num, by norm_num, ?_⟩
  rw [hsteel, hcap]
  norm_num

end StructuralSuite
